import Mathlib

/-!
Shallow embedding of the Smart-email-miner webhook service
(`email_webhook.py`, `subscription.py`, `main.py`).

Python truthiness on optional strings, HTML-stripping (BeautifulSoup),
chunking and embedding are external collaborators and appear as explicit
parameters; everything else is translated directly from the source.
-/

namespace SmartEmailMiner

/-- Python truthiness of an optional string: `None` and `""` are falsy. -/
def pyTruthy : Option String → Bool
  | none => false
  | some s => s != ""

/-- Code points Python `str.isspace` (and hence `str.strip()`) treats as
whitespace: the ASCII whitespace 0x09-0x0d and 0x20, the separators
0x1c-0x1f, NEL 0x85, no-break space 0xa0, Ogham space 0x1680, the Unicode
spaces 0x2000-0x200a, line and paragraph separators 0x2028-0x2029, narrow
no-break space 0x202f, medium mathematical space 0x205f, and ideographic
space 0x3000. -/
def pyWhitespaceCodes : List Nat :=
  [0x09, 0x0a, 0x0b, 0x0c, 0x0d, 0x1c, 0x1d, 0x1e, 0x1f, 0x20, 0x85, 0xa0,
    0x1680, 0x2000, 0x2001, 0x2002, 0x2003, 0x2004, 0x2005, 0x2006, 0x2007,
    0x2008, 0x2009, 0x200a, 0x2028, 0x2029, 0x202f, 0x205f, 0x3000]

/-- Python `str.isspace`-style whitespace recognized by `str.strip()`. -/
def isPySpace (c : Char) : Bool :=
  pyWhitespaceCodes.contains c.toNat

/-- Python `str.strip()`: drop leading and trailing whitespace. -/
def pyStrip (s : String) : String :=
  String.mk (((s.toList.dropWhile isPySpace).reverse.dropWhile isPySpace).reverse)

/-- Python f-string rendering of an optional string (`None` prints as "None"). -/
def pyStrOf : Option String → String
  | none => "None"
  | some s => s

/-! ## Webhook gateway (`handle_graph_webhook` in email_webhook.py) -/

/-- HTTP methods the route accepts (`methods=["GET", "POST"]`). -/
inductive Method
  | get
  | post
deriving DecidableEq

/-- One element of the `value` array of a Graph change notification:
`notification.get("resource", "")` is modelled by an optional field. -/
structure GraphNotification where
  resource : Option String
deriving DecidableEq

/-- A successfully parsed POST body: `body.get("value", [])`. -/
structure NotificationPayload where
  value : List GraphNotification
deriving DecidableEq

/-- An incoming request: method, the `validationToken` query parameter
(absent or its value), and the parse result of the JSON body
(`none` models `await request.json()` raising). -/
structure Request where
  method : Method
  validationToken : Option String
  jsonBody : Option NotificationPayload
deriving DecidableEq

/-- Response bodies: plain text, or a JSON object rendered from pairs. -/
inductive RespBody
  | text (s : String)
  | jsonObj (pairs : List (String × String))
deriving DecidableEq

/-- An HTTP response: status, media type, body.
`PlainTextResponse` has media type "text/plain", `JSONResponse`
"application/json". -/
structure Response where
  status_code : Nat
  media_type : String
  body : RespBody
deriving DecidableEq

/-- `handle_graph_webhook`: validation echo first (for any method), then the
POST branch (parse JSON, schedule one background task per notification,
202; parse failure 400), otherwise 405.  The second component is the list
of background-task resources scheduled via `background_tasks.add_task`. -/
def handle_graph_webhook (req : Request) : Response × List String :=
  if pyTruthy req.validationToken then
    (⟨200, "text/plain", RespBody.text (req.validationToken.getD "")⟩, [])
  else if req.method = Method.post then
    match req.jsonBody with
    | some body =>
        (⟨202, "application/json", RespBody.jsonObj [("status", "Notification received")]⟩,
          body.value.map (fun n => n.resource.getD ""))
    | none =>
        (⟨400, "application/json", RespBody.jsonObj [("error", "Invalid JSON")]⟩, [])
  else
    (⟨405, "text/plain", RespBody.text ""⟩, [])

/-! ## Subscription manager (`subscription.py`) -/

/-- Environment for one `renew_subscription` call: the token acquisition
result and the HTTP status of the PATCH (consulted only if it is issued). -/
structure RenewEnv where
  token : Option String
  patchStatus : Nat
deriving DecidableEq

/-- Network calls a subscription operation can issue. -/
inductive NetCall
  | acquireToken
  | patchSubscription (id : String)
deriving DecidableEq

/-- `renew_subscription`: guard on the cached id, then token acquisition,
then PATCH; returns whether the PATCH came back 200, together with the
network calls actually issued. -/
def renew_subscription (subId : Option String) (env : RenewEnv) : Bool × List NetCall :=
  if pyTruthy subId = false then
    (false, [])
  else if pyTruthy env.token = false then
    (false, [NetCall.acquireToken])
  else
    (env.patchStatus == 200, [NetCall.acquireToken, NetCall.patchSubscription (subId.getD "")])

/-- Environment for one `create_subscription` call: the POST status and the
`id` field of the JSON response. -/
structure CreateEnv where
  status : Nat
  responseId : Option String
deriving DecidableEq

/-- The request body `create_subscription` POSTs to the provider. -/
structure SubscriptionRequest where
  changeType : String
  notificationUrl : String
  resource : String
  expirationDateTime : Nat
  clientState : String
deriving DecidableEq

/-- Result of `create_subscription`: the returned boolean, the value of the
global `current_subscription_id` afterwards, and the request body sent. -/
structure CreateResult where
  ok : Bool
  newSubId : Option String
  request : SubscriptionRequest
deriving DecidableEq

/-- `create_subscription`: builds the body with expiration 40 hours from
`now` (seconds) and the shared-secret `clientState`; on 201 caches the
response id and returns true, otherwise returns false leaving the cached
id unchanged.  It never raises on a non-201 status. -/
def create_subscription (now : Nat) (callbackUrl resourcePath : String)
    (curId : Option String) (env : CreateEnv) : CreateResult :=
  let body : SubscriptionRequest :=
    { changeType := "created"
      notificationUrl := callbackUrl
      resource := resourcePath
      expirationDateTime := now + 40 * 3600
      clientState := "aSecretValueToVerifyTheOrigin" }
  if env.status = 201 then
    { ok := true, newSubId := env.responseId, request := body }
  else
    { ok := false, newSubId := curId, request := body }

/-! ## Renewal scheduler (`start_scheduler` / `run_scheduled_check`) -/

/-- The two polling cadences of the scheduler job. -/
inductive Cadence
  | fast
  | slow
deriving DecidableEq

/-- Scheduler-visible state: the globals `current_subscription_id` and
`use_fast_scheduler`, plus the interval of the installed job. -/
structure SchedState where
  current_subscription_id : Option String
  use_fast_scheduler : Bool
  cadence : Cadence
deriving DecidableEq

/-- Operations a tick performs, in order. -/
inductive Op
  | getTokenOp
  | deleteAllOp
  | createOp
  | renewAttempt
  | switchToSlow
deriving DecidableEq

/-- Environment for one tick of `run_scheduled_check`: outcomes of the
renew call (cached-id branch), the recovery token acquisition, the create
call, and the post-create renew call. -/
structure TickEnv where
  renewEnv : RenewEnv
  recoveryToken : Option String
  now : Nat
  callbackUrl : String
  resourcePath : String
  createEnv : CreateEnv
  postCreateRenewEnv : RenewEnv
deriving DecidableEq

/-- `run_scheduled_check`: with a cached id, renew, and on success while
fast flip to the slow cadence (one-way); with no cached id, recover by
acquiring a token, deleting all subscriptions, creating a fresh one and,
if created, attempting one renew whose result is discarded. -/
def run_scheduled_check (s : SchedState) (env : TickEnv) : SchedState × List Op :=
  if pyTruthy s.current_subscription_id then
    let success := (renew_subscription s.current_subscription_id env.renewEnv).1
    if success && s.use_fast_scheduler then
      ({ s with use_fast_scheduler := false, cadence := Cadence.slow },
        [Op.renewAttempt, Op.switchToSlow])
    else
      (s, [Op.renewAttempt])
  else if pyTruthy env.recoveryToken = false then
    (s, [Op.getTokenOp])
  else
    let cres := create_subscription env.now env.callbackUrl env.resourcePath
      s.current_subscription_id env.createEnv
    let s1 : SchedState := { s with current_subscription_id := cres.newSubId }
    if cres.ok then
      (s1, [Op.getTokenOp, Op.deleteAllOp, Op.createOp, Op.renewAttempt])
    else
      (s1, [Op.getTokenOp, Op.deleteAllOp, Op.createOp])

/-- `start_scheduler`: initial globals (`current_subscription_id = None`,
`use_fast_scheduler = True`) with the 15-second job installed. -/
def start_scheduler : SchedState :=
  { current_subscription_id := none, use_fast_scheduler := true, cadence := Cadence.fast }

/-! ## Ingestion pipeline (`process_and_store_email` in email_webhook.py) -/

/-- A fetched message, as the fields `process_and_store_email` reads via
`dict.get`; `none` models an absent key, so each default applies. -/
structure EmailData where
  id : Option String
  subject : Option String
  fromAddress : Option String
  fromName : Option String
  sentDateTime : Option String
  ccRecipients : List (Option String)
  hasAttachments : Bool
  bodyContent : Option String
deriving DecidableEq

/-- Message-level fields merged into every chunk's metadata. -/
structure ChunkMeta where
  email_id : Option String
  subject : String
  sender : String
  sender_name : String
  timestamp : String
  cc : List String
  hasAttachments : Bool
deriving DecidableEq

/-- A chunk as appended to the vector index: text plus enriched metadata. -/
structure Chunk where
  text : String
  meta : ChunkMeta
deriving DecidableEq

/-- One persisted entry of `metadata.json`. -/
structure MetadataRecord where
  email_id : Option String
  subject : String
  sender : String
  sender_name : String
  timestamp : String
  cc : List String
  hasAttachments : Bool
  chunk_count : Nat
  index_path : String
  uploadDate : String
deriving DecidableEq

/-- Contents of the shared metadata file: missing, present but not
parseable as JSON, or a parsed list of records. -/
inductive MetaFile
  | absent
  | corrupt
  | records (l : List MetadataRecord)
deriving DecidableEq

/-- Lines 161-167: missing file and `json.JSONDecodeError` both yield the
empty record list. -/
def readMetadataList : MetaFile → List MetadataRecord
  | MetaFile.records l => l
  | _ => []

/-- The duplicate check `any(m.get("email_id") == uid for m in metadata_list)`. -/
def hasId (uid : Option String) (l : List MetadataRecord) : Bool :=
  l.any (fun m => m.email_id == uid)

/-- Observable side effects of one ingestion, in order. -/
inductive Effect
  | makeDirs
  | writeTempFile (path contents : String)
  | appendIndex (n : Nat)
  | writeMetadataFile
  | removeTempFile (path : String)
deriving DecidableEq

/-- The critical section under the file lock (lines 159-174): read the
current records, skip when a record with the same `email_id` exists,
otherwise append and rewrite the full file. -/
def appendMetadataStep (uid : Option String) (entry : MetadataRecord)
    (file : MetaFile) : MetaFile × List Effect :=
  let metadata_list := readMetadataList file
  if hasId uid metadata_list then
    (file, [])
  else
    (MetaFile.records (metadata_list ++ [entry]), [Effect.writeMetadataFile])

/-- On-disk state the pipeline touches: the metadata file, the chunks of
`index_email.faiss`, and the temporary text files present. -/
structure FsState where
  metadataFile : MetaFile
  indexChunks : List Chunk
  tempFiles : List String
deriving DecidableEq

/-- Writing a file creates it when absent. -/
def addFile (files : List String) (name : String) : List String :=
  if name ∈ files then files else files ++ [name]

/-- The path of `index_email.faiss` under the per-source-type directory. -/
def index_email_path : String := "vector_stores/email_data/index_email.faiss"

/-- The temp file name `email_{uid}_{timestamp}.txt` (an f-string renders a
missing id as "None"). -/
def mkTempFilePath (uid : Option String) (timestamp : String) : String :=
  "vector_stores/email_data/email_" ++ pyStrOf uid ++ "_" ++ timestamp ++ ".txt"

/-- `process_and_store_email`.  `getText` stands for BeautifulSoup's
`get_text` and `chunkTexts` for the opaque chunker (texts of the chunks it
produces from the temp file's contents); `timestamp` is the formatted
`utcnow` of line 114 and `uploadDate` the `utcnow().isoformat()` of
line 156.  Returns the resulting disk state and the effects performed. -/
def process_and_store_email (getText : String → String) (chunkTexts : String → List String)
    (timestamp uploadDate : String) (ed : EmailData) (fs : FsState) : FsState × List Effect :=
  let uid := ed.id
  let subject := ed.subject.getD "No Subject"
  let sender := ed.fromAddress.getD "unknown"
  let sender_name := ed.fromName.getD "Unknown"
  let _sent_time := ed.sentDateTime.getD "unknown"
  let cc_list := ed.ccRecipients.map (fun r => r.getD "")
  let has_attachments := ed.hasAttachments
  let html_body := ed.bodyContent.getD ""
  let plain_body := getText html_body
  if pyStrip plain_body = "" then
    (fs, [])
  else
    let temp_file_path := mkTempFilePath uid timestamp
    let fs1 : FsState := { fs with tempFiles := addFile fs.tempFiles temp_file_path }
    let cmeta : ChunkMeta :=
      { email_id := uid, subject := subject, sender := sender, sender_name := sender_name,
        timestamp := timestamp, cc := cc_list, hasAttachments := has_attachments }
    let chunks := (chunkTexts plain_body).map (fun t => Chunk.mk t cmeta)
    let fs2 : FsState := { fs1 with indexChunks := fs1.indexChunks ++ chunks }
    let metadata_entry : MetadataRecord :=
      { email_id := uid, subject := subject, sender := sender, sender_name := sender_name,
        timestamp := timestamp, cc := cc_list, hasAttachments := has_attachments,
        chunk_count := chunks.length, index_path := index_email_path, uploadDate := uploadDate }
    let stepRes := appendMetadataStep uid metadata_entry fs2.metadataFile
    let fs3 : FsState := { fs2 with metadataFile := stepRes.1 }
    let fs4 : FsState := { fs3 with tempFiles := fs3.tempFiles.erase temp_file_path }
    (fs4,
      [Effect.makeDirs, Effect.writeTempFile temp_file_path plain_body,
        Effect.appendIndex chunks.length]
      ++ stepRes.2 ++ [Effect.removeTempFile temp_file_path])

/-- The number of records carrying a given `email_id` in the metadata file. -/
def countId (file : MetaFile) (uid : Option String) : Nat :=
  (readMetadataList file).countP (fun m => m.email_id == uid)

/-- A sequence of ingestions: each element is a message with the two
timestamps of its run; the state threads left to right. -/
def ingestAll (getText : String → String) (chunkTexts : String → List String)
    (msgs : List (EmailData × String × String)) (fs : FsState) : FsState :=
  msgs.foldl
    (fun acc m => (process_and_store_email getText chunkTexts m.2.1 m.2.2 m.1 acc).1) fs

/-- The state of a fresh deployment: no metadata file, no index, no temp
files. -/
def emptyFs : FsState :=
  { metadataFile := MetaFile.absent, indexChunks := [], tempFiles := [] }

/-- The MetadataRecord `process_and_store_email` builds for a message
whose stripped body is `plain_body`. -/
def metadataEntryOf (chunkTexts : String → List String) (timestamp uploadDate : String)
    (ed : EmailData) (plain_body : String) : MetadataRecord :=
  { email_id := ed.id
    subject := ed.subject.getD "No Subject"
    sender := ed.fromAddress.getD "unknown"
    sender_name := ed.fromName.getD "Unknown"
    timestamp := timestamp
    cc := ed.ccRecipients.map (fun r => r.getD "")
    hasAttachments := ed.hasAttachments
    chunk_count := (chunkTexts plain_body).length
    index_path := index_email_path
    uploadDate := uploadDate }

/-! ## Helper lemmas -/

lemma process_eq_of_blank_body (getText : String → String) (chunkTexts : String → List String)
    (timestamp uploadDate : String) (ed : EmailData) (fs : FsState)
    (h : pyStrip (getText (ed.bodyContent.getD "")) = "") :
    process_and_store_email getText chunkTexts timestamp uploadDate ed fs = (fs, []) := by
  simp only [process_and_store_email]
  rw [if_pos h]

lemma process_metadataFile_step (getText : String → String) (chunkTexts : String → List String)
    (timestamp uploadDate : String) (ed : EmailData) (fs : FsState)
    (h : ¬ pyStrip (getText (ed.bodyContent.getD "")) = "") :
    ((process_and_store_email getText chunkTexts timestamp uploadDate ed fs).1).metadataFile
      = (appendMetadataStep ed.id
          (metadataEntryOf chunkTexts timestamp uploadDate ed (getText (ed.bodyContent.getD "")))
          fs.metadataFile).1 := by
  simp only [process_and_store_email]
  rw [if_neg h]
  simp [metadataEntryOf, List.length_map]

lemma appendMetadataStep_fst (uid : Option String) (entry : MetadataRecord) (file : MetaFile) :
    (appendMetadataStep uid entry file).1 =
      if hasId uid (readMetadataList file) then file
      else MetaFile.records (readMetadataList file ++ [entry]) := by
  simp only [appendMetadataStep]
  split <;> rfl

lemma countP_zero_of_hasId_false {uid : Option String} {l : List MetadataRecord}
    (h : hasId uid l = false) : l.countP (fun m => m.email_id == uid) = 0 := by
  rw [List.countP_eq_zero]
  intro a ha hpa
  have htrue : hasId uid l = true := by
    simp only [hasId, List.any_eq_true]
    exact ⟨a, ha, hpa⟩
  simp [htrue] at h

lemma countId_pos_of_hasId_true {uid : Option String} {file : MetaFile}
    (h : hasId uid (readMetadataList file) = true) : 0 < countId file uid := by
  simp only [countId, List.countP_pos_iff]
  simpa only [hasId, List.any_eq_true] using h

lemma step_countId_cases {uid0 uid : Option String} {entry : MetadataRecord} {file : MetaFile}
    (he : entry.email_id = uid) :
    (0 < countId file uid ∧
        countId (appendMetadataStep uid entry file).1 uid0 = countId file uid0) ∨
      (countId file uid = 0 ∧
        countId (appendMetadataStep uid entry file).1 uid0
          = countId file uid0 + (if uid = uid0 then 1 else 0)) := by
  rw [appendMetadataStep_fst]
  by_cases hdup : hasId uid (readMetadataList file) = true
  · left
    refine ⟨countId_pos_of_hasId_true hdup, ?_⟩
    rw [if_pos hdup]
  · have hdup' : hasId uid (readMetadataList file) = false := by simpa using hdup
    have h0 := countP_zero_of_hasId_false hdup'
    right
    refine ⟨h0, ?_⟩
    rw [if_neg hdup]
    by_cases huid : uid = uid0
    · subst huid
      simp [countId, readMetadataList, List.countP_append, List.countP_cons, he]
    · have hne : (entry.email_id == uid0) = false := by
        rw [he]
        simpa using huid
      simp [countId, readMetadataList, List.countP_append, List.countP_cons, hne, huid]

lemma step_countId_le_one {uid0 uid : Option String} {entry : MetadataRecord} {file : MetaFile}
    (he : entry.email_id = uid) (h : countId file uid0 ≤ 1) :
    countId (appendMetadataStep uid entry file).1 uid0 ≤ 1 := by
  rcases @step_countId_cases uid0 uid entry file he with ⟨_, heq⟩ | ⟨h0, heq⟩
  · rw [heq]; exact h
  · rw [heq]
    by_cases huid : uid = uid0
    · subst huid
      simp [h0]
    · simpa [huid] using h

lemma step_countId_eq_one {uid0 uid : Option String} {entry : MetadataRecord} {file : MetaFile}
    (he : entry.email_id = uid) (h : countId file uid0 = 1) :
    countId (appendMetadataStep uid entry file).1 uid0 = 1 := by
  rcases @step_countId_cases uid0 uid entry file he with ⟨_, heq⟩ | ⟨h0, heq⟩
  · rw [heq]; exact h
  · rw [heq]
    by_cases huid : uid = uid0
    · subst huid
      rw [h] at h0
      cases h0
    · simpa [huid] using h

lemma step_countId_self {uid : Option String} {entry : MetadataRecord} {file : MetaFile}
    (he : entry.email_id = uid) (h : countId file uid ≤ 1) :
    countId (appendMetadataStep uid entry file).1 uid = 1 := by
  rcases @step_countId_cases uid uid entry file he with ⟨hpos, heq⟩ | ⟨h0, heq⟩
  · rw [heq]; omega
  · rw [heq]
    simp [h0]

lemma process_countId_le_one (getText : String → String) (chunkTexts : String → List String)
    (timestamp uploadDate : String) (ed : EmailData) (fs : FsState) (uid0 : Option String)
    (h : countId fs.metadataFile uid0 ≤ 1) :
    countId ((process_and_store_email getText chunkTexts timestamp uploadDate ed fs).1).metadataFile
        uid0 ≤ 1 := by
  by_cases hb : pyStrip (getText (ed.bodyContent.getD "")) = ""
  · rw [process_eq_of_blank_body getText chunkTexts timestamp uploadDate ed fs hb]
    exact h
  · rw [process_metadataFile_step getText chunkTexts timestamp uploadDate ed fs hb]
    exact step_countId_le_one rfl h

lemma process_countId_eq_one (getText : String → String) (chunkTexts : String → List String)
    (timestamp uploadDate : String) (ed : EmailData) (fs : FsState) (uid0 : Option String)
    (h : countId fs.metadataFile uid0 = 1) :
    countId ((process_and_store_email getText chunkTexts timestamp uploadDate ed fs).1).metadataFile
        uid0 = 1 := by
  by_cases hb : pyStrip (getText (ed.bodyContent.getD "")) = ""
  · rw [process_eq_of_blank_body getText chunkTexts timestamp uploadDate ed fs hb]
    exact h
  · rw [process_metadataFile_step getText chunkTexts timestamp uploadDate ed fs hb]
    exact step_countId_eq_one rfl h

lemma process_countId_self (getText : String → String) (chunkTexts : String → List String)
    (timestamp uploadDate : String) (ed : EmailData) (fs : FsState)
    (h : countId fs.metadataFile ed.id ≤ 1)
    (hb : ¬ pyStrip (getText (ed.bodyContent.getD "")) = "") :
    countId ((process_and_store_email getText chunkTexts timestamp uploadDate ed fs).1).metadataFile
        ed.id = 1 := by
  rw [process_metadataFile_step getText chunkTexts timestamp uploadDate ed fs hb]
  exact step_countId_self rfl h

lemma ingestAll_cons (getText : String → String) (chunkTexts : String → List String)
    (m : EmailData × String × String) (ms : List (EmailData × String × String)) (fs : FsState) :
    ingestAll getText chunkTexts (m :: ms) fs
      = ingestAll getText chunkTexts ms
          (process_and_store_email getText chunkTexts m.2.1 m.2.2 m.1 fs).1 := rfl

lemma ingestAll_append (getText : String → String) (chunkTexts : String → List String)
    (l1 l2 : List (EmailData × String × String)) (fs : FsState) :
    ingestAll getText chunkTexts (l1 ++ l2) fs
      = ingestAll getText chunkTexts l2 (ingestAll getText chunkTexts l1 fs) := by
  simp [ingestAll, List.foldl_append]

lemma ingestAll_countId_le_one (getText : String → String) (chunkTexts : String → List String)
    (uid0 : Option String) (msgs : List (EmailData × String × String)) :
    ∀ fs : FsState, countId fs.metadataFile uid0 ≤ 1 →
      countId (ingestAll getText chunkTexts msgs fs).metadataFile uid0 ≤ 1 := by
  induction msgs with
  | nil => intro fs h; exact h
  | cons m ms ih =>
      intro fs h
      rw [ingestAll_cons]
      exact ih _ (process_countId_le_one _ _ _ _ _ _ _ h)

lemma ingestAll_countId_eq_one (getText : String → String) (chunkTexts : String → List String)
    (uid0 : Option String) (msgs : List (EmailData × String × String)) :
    ∀ fs : FsState, countId fs.metadataFile uid0 = 1 →
      countId (ingestAll getText chunkTexts msgs fs).metadataFile uid0 = 1 := by
  induction msgs with
  | nil => intro fs h; exact h
  | cons m ms ih =>
      intro fs h
      rw [ingestAll_cons]
      exact ih _ (process_countId_eq_one _ _ _ _ _ _ _ h)

/-! ## Theorems -/

/-- Claim C3: a message whose HTML body strips to empty or whitespace-only
plain text makes `process_and_store_email` return with the disk state
unchanged and no effects: no temp file, no index append, no metadata
record. -/
theorem C3_empty_body_skip (getText : String → String) (chunkTexts : String → List String)
    (timestamp uploadDate : String) (ed : EmailData) (fs : FsState)
    (h : pyStrip (getText (ed.bodyContent.getD "")) = "") :
    process_and_store_email getText chunkTexts timestamp uploadDate ed fs = (fs, []) := by
  simp only [process_and_store_email]
  rw [if_pos h]

/-- Witness for C3 at a concrete whitespace-only body. -/
theorem C3_witness :
    pyStrip ((fun s => s)
        ((EmailData.mk (some "m0") none none none none [] false (some "  \n ")).bodyContent.getD ""))
      = "" ∧
    process_and_store_email (fun s => s) (fun s => [s]) "ts" "up"
        (EmailData.mk (some "m0") none none none none [] false (some "  \n ")) emptyFs
      = (emptyFs, []) :=
  ⟨by decide,
    C3_empty_body_skip (fun s => s) (fun s => [s]) "ts" "up"
      (EmailData.mk (some "m0") none none none none [] false (some "  \n ")) emptyFs (by decide)⟩

/-- Claim C4: `renew_subscription` with no cached subscription id returns
false and issues no network call at all — neither a token acquisition nor
a PATCH. -/
theorem C4_renew_guard_no_network (env : RenewEnv) :
    renew_subscription none env = (false, []) := by
  simp [renew_subscription, pyTruthy]

/-- Claim C5, counterexample: a GET carrying the `validationToken`
parameter with the empty value is answered 405, not 200, because the
handler tests Python truthiness of the token, so the claim as stated
fails on this input. -/
theorem C5_counterexample :
    (handle_graph_webhook ⟨Method.get, some "", none⟩).1.status_code = 405 ∧
      (handle_graph_webhook ⟨Method.get, some "", none⟩).1.status_code ≠ 200 := by
  decide

/-- Claim C5, amended: a GET whose `validationToken` parameter is present
and non-empty is answered with exactly the token as a text/plain 200 body,
scheduling nothing. -/
theorem C5_validation_echo (t : String) (b : Option NotificationPayload) (h : t ≠ "") :
    handle_graph_webhook ⟨Method.get, some t, b⟩ =
      (⟨200, "text/plain", RespBody.text t⟩, []) := by
  simp [handle_graph_webhook, pyTruthy, h]

/-- Witness for C5 at `validationToken=ABC123`. -/
theorem C5_witness :
    ("ABC123" : String) ≠ "" ∧
      handle_graph_webhook ⟨Method.get, some "ABC123", none⟩ =
        (⟨200, "text/plain", RespBody.text "ABC123"⟩, []) :=
  ⟨by decide, C5_validation_echo "ABC123" none (by decide)⟩

/-- Claim C6, counterexample: a POST whose body is unparseable but whose
query string carries `validationToken=ABC` is answered 200 (the echo takes
precedence), not 400, so the claim as stated fails on this input. -/
theorem C6_counterexample :
    (handle_graph_webhook ⟨Method.post, some "ABC", none⟩).1.status_code = 200 ∧
      (handle_graph_webhook ⟨Method.post, some "ABC", none⟩).1.status_code ≠ 400 := by
  decide

/-- Claim C6, amended: a POST without a non-empty `validationToken` query
parameter and with an unparseable JSON body is answered 400 and schedules
zero background tasks. -/
theorem C6_malformed_post_400 (v : Option String) (h : pyTruthy v = false) :
    handle_graph_webhook ⟨Method.post, v, none⟩ =
      (⟨400, "application/json", RespBody.jsonObj [("error", "Invalid JSON")]⟩, []) := by
  simp [handle_graph_webhook, h]

/-- Witness for C6 at a POST with no token and an unparseable body. -/
theorem C6_witness :
    pyTruthy none = false ∧
      handle_graph_webhook ⟨Method.post, none, none⟩ =
        (⟨400, "application/json", RespBody.jsonObj [("error", "Invalid JSON")]⟩, []) :=
  ⟨rfl, C6_malformed_post_400 none rfl⟩

/-- Claim C7, counterexample: on a non-201 response `create_subscription`
completes normally, returning false with the cached id unchanged — it does
not raise any error. -/
theorem C7_counterexample :
    create_subscription 0 "cb" "res" none ⟨400, none⟩ =
      { ok := false, newSubId := none,
        request :=
          { changeType := "created", notificationUrl := "cb", resource := "res",
            expirationDateTime := 144000,
            clientState := "aSecretValueToVerifyTheOrigin" } } := by
  decide

/-- Claim C7, amended: `create_subscription` always requests an expiration
40 hours from now with the shared-secret clientState; it returns true and
caches the response id exactly on a 201 response, and otherwise returns
false (a normal return, no exception) leaving the cached id unchanged. -/
theorem C7_create_subscription_behavior (now : Nat) (callbackUrl resourcePath : String)
    (curId : Option String) (env : CreateEnv) :
    (create_subscription now callbackUrl resourcePath curId env).request.expirationDateTime
        = now + 40 * 3600 ∧
      (create_subscription now callbackUrl resourcePath curId env).request.clientState
        = "aSecretValueToVerifyTheOrigin" ∧
      (create_subscription now callbackUrl resourcePath curId env).ok
        = decide (env.status = 201) ∧
      (create_subscription now callbackUrl resourcePath curId env).newSubId
        = (if env.status = 201 then env.responseId else curId) := by
  unfold create_subscription
  split <;> simp_all

/-- Claim C8: the metadata-append step treats a corrupt, unparseable
metadata file as the empty record list and proceeds, appending the new
record instead of failing. -/
theorem C8_corrupt_file_treated_empty :
    readMetadataList MetaFile.corrupt = [] ∧
      ∀ (uid : Option String) (entry : MetadataRecord),
        appendMetadataStep uid entry MetaFile.corrupt =
          (MetaFile.records [entry], [Effect.writeMetadataFile]) := by
  refine ⟨rfl, fun uid entry => ?_⟩
  simp [appendMetadataStep, hasId, readMetadataList]

/-- Claim C10: a request whose query string carries a non-empty
`validationToken` is answered with the echo regardless of method; in
particular a POST is echoed with 200, its JSON body (whatever it parses
to) is irrelevant, and no background task is scheduled. -/
theorem C10_token_echo_any_method (m : Method) (t : String)
    (b : Option NotificationPayload) (h : t ≠ "") :
    handle_graph_webhook ⟨m, some t, b⟩ =
      (⟨200, "text/plain", RespBody.text t⟩, []) := by
  simp [handle_graph_webhook, pyTruthy, h]

/-- Witness for C10: a POST carrying `validationToken=ABC123` together
with a parseable notification body is still answered by the echo with no
task scheduled. -/
theorem C10_witness :
    ("ABC123" : String) ≠ "" ∧
      handle_graph_webhook ⟨Method.post, some "ABC123", some ⟨[⟨some "r1"⟩]⟩⟩ =
        (⟨200, "text/plain", RespBody.text "ABC123"⟩, []) :=
  ⟨by decide, C10_token_echo_any_method Method.post "ABC123" (some ⟨[⟨some "r1"⟩]⟩) (by decide)⟩

/-- Claim C1: in any sequence of ingestions starting from a fresh
deployment, ingesting a message with a given provider-assigned id twice —
with arbitrary other ingestions before, between and after — leaves exactly
one MetadataRecord with that `email_id` in the metadata file. -/
theorem C1_dedup_exactly_one_record (getText : String → String)
    (chunkTexts : String → List String)
    (pre mid post : List (EmailData × String × String))
    (ed : EmailData) (t1 u1 t2 u2 : String)
    (hb : pyStrip (getText (ed.bodyContent.getD "")) ≠ "") :
    countId (ingestAll getText chunkTexts
        (pre ++ (ed, t1, u1) :: (mid ++ (ed, t2, u2) :: post)) emptyFs).metadataFile ed.id
      = 1 := by
  have h0 : countId emptyFs.metadataFile ed.id ≤ 1 := by
    simp [countId, emptyFs, readMetadataList]
  rw [ingestAll_append, ingestAll_cons, ingestAll_append, ingestAll_cons]
  exact ingestAll_countId_eq_one _ _ _ post _
    (process_countId_eq_one _ _ _ _ _ _ _
      (ingestAll_countId_eq_one _ _ _ mid _
        (process_countId_self _ _ _ _ _ _
          (ingestAll_countId_le_one _ _ _ pre _ h0) hb)))

/-- Witness for C1: ingesting the same message id twice in a row from a
fresh deployment yields one record for that id. -/
theorem C1_witness :
    pyStrip ((fun s => s)
        ((EmailData.mk (some "m1") none none none none [] false (some "hello")).bodyContent.getD ""))
      ≠ "" ∧
    countId (ingestAll (fun s => s) (fun s => [s])
        [(EmailData.mk (some "m1") none none none none [] false (some "hello"), "t1", "u1"),
          (EmailData.mk (some "m1") none none none none [] false (some "hello"), "t2", "u2")]
        emptyFs).metadataFile (some "m1") = 1 :=
  ⟨by decide,
    C1_dedup_exactly_one_record (fun s => s) (fun s => [s]) [] [] []
      (EmailData.mk (some "m1") none none none none [] false (some "hello"))
      "t1" "u1" "t2" "u2" (by decide)⟩

/-- Claim C9: an ingestion never removes or alters an existing metadata
record: the metadata file is either left unchanged or rewritten as exactly
the prior record list with one record (carrying the message's id)
appended. -/
theorem C9_prior_records_preserved (getText : String → String)
    (chunkTexts : String → List String) (timestamp uploadDate : String)
    (ed : EmailData) (fs : FsState) :
    (process_and_store_email getText chunkTexts timestamp uploadDate ed fs).1.metadataFile
        = fs.metadataFile ∨
      ∃ r : MetadataRecord, r.email_id = ed.id ∧
        (process_and_store_email getText chunkTexts timestamp uploadDate ed fs).1.metadataFile
          = MetaFile.records (readMetadataList fs.metadataFile ++ [r]) := by
  by_cases hb : pyStrip (getText (ed.bodyContent.getD "")) = ""
  · left
    rw [process_eq_of_blank_body getText chunkTexts timestamp uploadDate ed fs hb]
  · rw [process_metadataFile_step getText chunkTexts timestamp uploadDate ed fs hb,
      appendMetadataStep_fst]
    by_cases hdup : hasId ed.id (readMetadataList fs.metadataFile) = true
    · left
      rw [if_pos hdup]
    · right
      exact ⟨metadataEntryOf chunkTexts timestamp uploadDate ed (getText (ed.bodyContent.getD "")),
        rfl, if_neg hdup⟩

/-- Claim C2: from the initial scheduler state, a tick whose create and
immediately following renew both succeed leaves the cadence fast with the
new id cached and the fast flag still set; the next tick performs only a
renew and, on its success, switches to the slow cadence.  Moreover the
transition is one-way: once the fast flag is cleared it stays cleared and
no further switch is performed, and once the cadence is slow it stays
slow. -/
theorem C2_scheduler_one_way_transition :
    (∀ env1 env2 : TickEnv,
      pyTruthy env1.recoveryToken = true →
      env1.createEnv.status = 201 →
      pyTruthy env1.createEnv.responseId = true →
      (renew_subscription env1.createEnv.responseId env1.postCreateRenewEnv).1 = true →
      (renew_subscription env1.createEnv.responseId env2.renewEnv).1 = true →
      run_scheduled_check start_scheduler env1 =
          (⟨env1.createEnv.responseId, true, Cadence.fast⟩,
            [Op.getTokenOp, Op.deleteAllOp, Op.createOp, Op.renewAttempt]) ∧
        run_scheduled_check ⟨env1.createEnv.responseId, true, Cadence.fast⟩ env2 =
          (⟨env1.createEnv.responseId, false, Cadence.slow⟩,
            [Op.renewAttempt, Op.switchToSlow])) ∧
    (∀ (s : SchedState) (env : TickEnv), s.use_fast_scheduler = false →
      (run_scheduled_check s env).1.use_fast_scheduler = false ∧
        ((run_scheduled_check s env).2.contains Op.switchToSlow) = false) ∧
    (∀ (s : SchedState) (env : TickEnv), s.cadence = Cadence.slow →
      (run_scheduled_check s env).1.cadence = Cadence.slow) := by
  have hnone : pyTruthy none = false := rfl
  refine ⟨fun env1 env2 h1 h2 h3 h4 h5 => ⟨?_, ?_⟩, fun s env h => ?_, fun s env h => ?_⟩
  · simp [run_scheduled_check, start_scheduler, hnone, h1, create_subscription, h2]
  · simp [run_scheduled_check, h3, h5]
  · simp only [run_scheduled_check]
    split
    · split
      · next hswitch => simp [h] at hswitch
      · exact ⟨h, rfl⟩
    · split
      · exact ⟨h, rfl⟩
      · split
        · exact ⟨h, rfl⟩
        · exact ⟨h, rfl⟩
  · simp only [run_scheduled_check]
    split
    · split
      · rfl
      · exact h
    · split
      · exact h
      · split
        · exact h
        · exact h

/-- A tick environment in which recovery, create and the post-create renew
all succeed. -/
def envTickA : TickEnv :=
  { renewEnv := ⟨none, 0⟩
    recoveryToken := some "tok"
    now := 0
    callbackUrl := "cb"
    resourcePath := "res"
    createEnv := ⟨201, some "sub1"⟩
    postCreateRenewEnv := ⟨some "tok", 200⟩ }

/-- A tick environment in which the renew of the cached id succeeds. -/
def envTickB : TickEnv :=
  { renewEnv := ⟨some "tok", 200⟩
    recoveryToken := none
    now := 0
    callbackUrl := ""
    resourcePath := ""
    createEnv := ⟨0, none⟩
    postCreateRenewEnv := ⟨none, 0⟩ }

/-- Witness for C2 at concrete successful environments. -/
theorem C2_witness :
    pyTruthy envTickA.recoveryToken = true ∧
      run_scheduled_check start_scheduler envTickA =
          (⟨some "sub1", true, Cadence.fast⟩,
            [Op.getTokenOp, Op.deleteAllOp, Op.createOp, Op.renewAttempt]) ∧
        run_scheduled_check ⟨some "sub1", true, Cadence.fast⟩ envTickB =
          (⟨some "sub1", false, Cadence.slow⟩, [Op.renewAttempt, Op.switchToSlow]) :=
  ⟨by decide,
    C2_scheduler_one_way_transition.1 envTickA envTickB
      (by decide) (by decide) (by decide) (by decide) (by decide)⟩

end SmartEmailMiner
